import Mathlib

/-!
Verification of the PhishAware risk-scoring and simulation-tracking core.

The definitions below are a shallow embedding of the Python source under
`Backend/apps/training` (risk scoring, remediation), `Backend/apps/simulations`
(email-simulation state machine, campaign rollups, tracking endpoints) and
`Backend/apps/campaigns` (quiz result calculation).  Machine integers are
modelled as `Nat`/`Int` (Django `PositiveIntegerField`/`IntegerField`), and
Python float expressions over small counters are modelled as exact rationals;
Python `int()` applied to such a value is truncation toward zero (`ratTrunc`).
-/

namespace PhishAware

/-- Risk tiers used by `RiskScore.risk_level` (`apps/training/models.py`). -/
inductive RiskLevel
  | LOW
  | MEDIUM
  | HIGH
  | CRITICAL
deriving DecidableEq, Repr

/-- The `RiskScore` row (`apps/training/models.py`, class `RiskScore`):
current score/tier plus the cumulative behavioral counters.  Defaults are the
Django field defaults (`score=50`, `risk_level='MEDIUM'`, counters 0). -/
structure RiskScore where
  score : Int := 50
  risk_level : RiskLevel := .MEDIUM
  requires_remediation : Bool := false
  total_quizzes_taken : Nat := 0
  total_quiz_questions : Nat := 0
  correct_quiz_answers : Nat := 0
  phishing_emails_missed : Nat := 0
  total_simulations_received : Nat := 0
  simulations_opened : Nat := 0
  simulations_clicked : Nat := 0
  simulations_reported : Nat := 0
  credentials_entered : Nat := 0
  trainings_assigned : Nat := 0
  trainings_completed : Nat := 0
  trainings_passed : Nat := 0
deriving DecidableEq, Repr

/-- Python `int()` applied to an exact rational value: truncation toward
zero (`int(-6.66) = -6`, `int(6.66) = 6`). -/
def ratTrunc (q : ℚ) : ℤ := if 0 ≤ q then ⌊q⌋ else -⌊-q⌋

/-- `RiskScore.calculate_risk_level` (`apps/training/models.py` lines 143-152):
tier from the current score. -/
def calculate_risk_level (score : ℤ) : RiskLevel :=
  if score ≤ 30 then .LOW
  else if score ≤ 60 then .MEDIUM
  else if score ≤ 80 then .HIGH
  else .CRITICAL

/-- The `quiz_adjustment` computed inside `RiskScore.recalculate_score`
(lines 167-173): `int((0.5 - accuracy) * 40)` when there are quiz questions,
else 0. -/
def quiz_adjustment (rs : RiskScore) : ℤ :=
  if rs.total_quiz_questions = 0 then 0
  else ratTrunc ((1/2 - (rs.correct_quiz_answers : ℚ) / rs.total_quiz_questions) * 40)

/-- The `simulation_adjustment` computed inside `RiskScore.recalculate_score`
(lines 178-183): `int(click_rate * 30)` when simulations were received, else 0. -/
def simulation_adjustment (rs : RiskScore) : ℤ :=
  if rs.total_simulations_received = 0 then 0
  else ratTrunc (((rs.simulations_clicked : ℚ) / rs.total_simulations_received) * 30)

/-- `RiskScore.recalculate_score` (`apps/training/models.py` lines 154-212):
recomputes `score` (clamped to [0,100]), `risk_level` and
`requires_remediation` from the cumulative counters. -/
def recalculate_score (rs : RiskScore) : RiskScore :=
  let phishing_penalty : ℤ := (min (rs.phishing_emails_missed * 5) 25 : ℕ)
  let credential_penalty : ℤ := (min (rs.credentials_entered * 15) 20 : ℕ)
  let report_bonus : ℤ := (min (rs.simulations_reported * 5) 15 : ℕ)
  let training_bonus : ℤ := (min (rs.trainings_passed * 10) 25 : ℕ)
  let new_score : ℤ :=
    50 + quiz_adjustment rs + phishing_penalty + simulation_adjustment rs
      + credential_penalty - report_bonus - training_bonus
  let score := max 0 (min 100 new_score)
  { rs with
      score := score
      risk_level := calculate_risk_level score
      requires_remediation := decide (score > 70) }

/-- The spec sentence's accuracy: `correct/total quiz questions (0 if no
questions yet)` - read literally, the accuracy itself is 0 when there are no
questions. -/
def claimAccuracy (rs : RiskScore) : ℚ :=
  if rs.total_quiz_questions = 0 then 0
  else (rs.correct_quiz_answers : ℚ) / rs.total_quiz_questions

/-- The claim's quiz adjustment: `floor((0.5 - accuracy) * 40)`. -/
def claimQuizAdj (rs : RiskScore) : ℤ := ⌊(1/2 - claimAccuracy rs) * 40⌋

/-- The claim's click rate: `simulations_clicked / total_simulations_received`
(0 if none). -/
def claimClickRate (rs : RiskScore) : ℚ :=
  if rs.total_simulations_received = 0 then 0
  else (rs.simulations_clicked : ℚ) / rs.total_simulations_received

/-- The claim's simulation adjustment: `floor(click_rate * 30)`. -/
def claimSimAdj (rs : RiskScore) : ℤ := ⌊claimClickRate rs * 30⌋

/-- The claim's raw score: base 50 plus all adjustments/penalties/bonuses. -/
def claimRawScore (rs : RiskScore) : ℤ :=
  50 + claimQuizAdj rs + (min (rs.phishing_emails_missed * 5) 25 : ℕ)
    + claimSimAdj rs + (min (rs.credentials_entered * 15) 20 : ℕ)
    - (min (rs.simulations_reported * 5) 15 : ℕ)
    - (min (rs.trainings_passed * 10) 25 : ℕ)

/-- The claim's final score: `clamp(raw, 0, 100)`. -/
def claimScore (rs : RiskScore) : ℤ := max 0 (min 100 (claimRawScore rs))

/-- The amended quiz adjustment: 0 when there are no quiz questions, and
otherwise the truncation toward zero (Python `int()`) of
`(0.5 - correct/total) * 40 = (20*total - 40*correct)/total`, written with
natural-number floor division on the positive numerator. -/
def amendedQuizAdj (rs : RiskScore) : ℤ :=
  if rs.total_quiz_questions = 0 then 0
  else if 2 * rs.correct_quiz_answers ≤ rs.total_quiz_questions then
    ((20 * rs.total_quiz_questions - 40 * rs.correct_quiz_answers) / rs.total_quiz_questions : ℕ)
  else
    -(((40 * rs.correct_quiz_answers - 20 * rs.total_quiz_questions) / rs.total_quiz_questions : ℕ) : ℤ)

/-- The amended raw score: the claim's formula with the quiz adjustment
replaced by the truncating version. -/
def amendedRawScore (rs : RiskScore) : ℤ :=
  50 + amendedQuizAdj rs + (min (rs.phishing_emails_missed * 5) 25 : ℕ)
    + claimSimAdj rs + (min (rs.credentials_entered * 15) 20 : ℕ)
    - (min (rs.simulations_reported * 5) 15 : ℕ)
    - (min (rs.trainings_passed * 10) 25 : ℕ)

/-- The amended final score: `clamp(amended raw, 0, 100)`. -/
def amendedScore (rs : RiskScore) : ℤ := max 0 (min 100 (amendedRawScore rs))

theorem ratTrunc_of_nonneg {q : ℚ} (h : 0 ≤ q) : ratTrunc q = ⌊q⌋ := by
  simp [ratTrunc, h]

theorem quiz_adjustment_eq_amended (rs : RiskScore) :
    quiz_adjustment rs = amendedQuizAdj rs := by
  unfold quiz_adjustment amendedQuizAdj
  by_cases h0 : rs.total_quiz_questions = 0
  · simp [h0]
  · have htpos : (0 : ℚ) < rs.total_quiz_questions := by
      exact_mod_cast Nat.pos_of_ne_zero h0
    have key : (1/2 - (rs.correct_quiz_answers : ℚ) / rs.total_quiz_questions) * 40
        = (20 * (rs.total_quiz_questions : ℚ) - 40 * rs.correct_quiz_answers)
            / rs.total_quiz_questions := by
      field_simp
      ring
    simp only [h0, if_false]
    by_cases hc : 2 * rs.correct_quiz_answers ≤ rs.total_quiz_questions
    · have hsub : 40 * rs.correct_quiz_answers ≤ 20 * rs.total_quiz_questions := by omega
      have hnum : ((20 * rs.total_quiz_questions - 40 * rs.correct_quiz_answers : ℕ) : ℚ)
          = 20 * (rs.total_quiz_questions : ℚ) - 40 * rs.correct_quiz_answers := by
        push_cast [Nat.cast_sub hsub]
        ring
      have hq : 0 ≤ (1/2 - (rs.correct_quiz_answers : ℚ) / rs.total_quiz_questions) * 40 := by
        rw [key, ← hnum]
        positivity
      rw [ratTrunc_of_nonneg hq, key, ← hnum, if_pos hc]
      exact_mod_cast Rat.floor_natCast_div_natCast
        (20 * rs.total_quiz_questions - 40 * rs.correct_quiz_answers) rs.total_quiz_questions
    · have hsub : 20 * rs.total_quiz_questions ≤ 40 * rs.correct_quiz_answers := by omega
      have hnum : ((40 * rs.correct_quiz_answers - 20 * rs.total_quiz_questions : ℕ) : ℚ)
          = 40 * (rs.correct_quiz_answers : ℚ) - 20 * rs.total_quiz_questions := by
        push_cast [Nat.cast_sub hsub]
        ring
      have hlt : 20 * (rs.total_quiz_questions : ℚ) - 40 * rs.correct_quiz_answers < 0 := by
        have : (rs.total_quiz_questions : ℚ) < 2 * rs.correct_quiz_answers := by
          exact_mod_cast Nat.lt_of_not_le hc
        linarith
      have hq : (1/2 - (rs.correct_quiz_answers : ℚ) / rs.total_quiz_questions) * 40 < 0 := by
        rw [key]
        exact div_neg_of_neg_of_pos hlt htpos
      rw [ratTrunc, if_neg (not_le.mpr hq), if_neg hc, key]
      have hneg : -((20 * (rs.total_quiz_questions : ℚ) - 40 * rs.correct_quiz_answers)
          / rs.total_quiz_questions)
          = ((40 * rs.correct_quiz_answers - 20 * rs.total_quiz_questions : ℕ) : ℚ)
            / rs.total_quiz_questions := by
        rw [hnum]
        field_simp
      rw [hneg]
      have := Rat.floor_natCast_div_natCast
        (40 * rs.correct_quiz_answers - 20 * rs.total_quiz_questions) rs.total_quiz_questions
      omega

theorem simulation_adjustment_eq_claim (rs : RiskScore) :
    simulation_adjustment rs = claimSimAdj rs := by
  unfold simulation_adjustment claimSimAdj claimClickRate
  by_cases h0 : rs.total_simulations_received = 0
  · simp [h0]
  · have hq : 0 ≤ ((rs.simulations_clicked : ℚ) / rs.total_simulations_received) * 30 := by
      positivity
    simp only [h0, if_false]
    exact ratTrunc_of_nonneg hq

theorem calculate_risk_level_iff (s : ℤ) :
    (calculate_risk_level s = .LOW ↔ s ≤ 30)
    ∧ (calculate_risk_level s = .MEDIUM ↔ 30 < s ∧ s ≤ 60)
    ∧ (calculate_risk_level s = .HIGH ↔ 60 < s ∧ s ≤ 80)
    ∧ (calculate_risk_level s = .CRITICAL ↔ 80 < s) := by
  unfold calculate_risk_level
  split_ifs <;> simp_all <;> omega

/-- C1: the claim is FALSE on the code at two concrete counter states.  With
3 quiz questions and 2 correct answers the code computes
`int((0.5 - 2/3) * 40) = -6` (Python `int()` truncates toward zero) and a
score of 44, while the claim's `floor((0.5 - accuracy) * 40) = -7` yields 43.
With no quiz questions at all the code uses a quiz adjustment of 0 (score 50),
while the claim's `accuracy = 0 if no questions` gives
`floor(0.5 * 40) = +20` (score 70). -/
theorem recalculate_score_floor_counterexample :
    ¬((recalculate_score { total_quiz_questions := 3, correct_quiz_answers := 2 }).score
        = claimScore { total_quiz_questions := 3, correct_quiz_answers := 2 })
    ∧ ¬((recalculate_score {}).score = claimScore {}) := by
  constructor
  · norm_num [recalculate_score, quiz_adjustment, simulation_adjustment, ratTrunc,
      claimScore, claimRawScore, claimQuizAdj, claimAccuracy, claimSimAdj, claimClickRate]
  · norm_num [recalculate_score, quiz_adjustment, simulation_adjustment, ratTrunc,
      claimScore, claimRawScore, claimQuizAdj, claimAccuracy, claimSimAdj, claimClickRate]

/-- C1 (amended): for every `RiskScore` state, `recalculate_score` returns
`clamp(50 + quiz_adj + phishing_penalty + sim_adj + credential_penalty -
report_bonus - training_bonus, 0, 100)` where `quiz_adj` is the truncation
toward zero (Python `int()`) of `(0.5 - accuracy) * 40` and 0 when there are
no quiz questions (not the floor of the claim), and the remaining terms are as
the claim states them; afterwards `risk_level` is LOW iff score ≤ 30, MEDIUM
iff 30 < score ≤ 60, HIGH iff 60 < score ≤ 80, CRITICAL iff score > 80, and
`requires_remediation` holds iff score > 70. -/
theorem recalculate_score_spec (rs : RiskScore) :
    (recalculate_score rs).score = amendedScore rs
    ∧ ((recalculate_score rs).risk_level = .LOW ↔ (recalculate_score rs).score ≤ 30)
    ∧ ((recalculate_score rs).risk_level = .MEDIUM ↔
        30 < (recalculate_score rs).score ∧ (recalculate_score rs).score ≤ 60)
    ∧ ((recalculate_score rs).risk_level = .HIGH ↔
        60 < (recalculate_score rs).score ∧ (recalculate_score rs).score ≤ 80)
    ∧ ((recalculate_score rs).risk_level = .CRITICAL ↔ 80 < (recalculate_score rs).score)
    ∧ ((recalculate_score rs).requires_remediation = true ↔ (recalculate_score rs).score > 70) := by
  have hscore : (recalculate_score rs).score = amendedScore rs := by
    unfold recalculate_score amendedScore amendedRawScore
    rw [quiz_adjustment_eq_amended, simulation_adjustment_eq_claim]
  have hlevel : (recalculate_score rs).risk_level = calculate_risk_level (recalculate_score rs).score := by
    unfold recalculate_score
    rfl
  refine ⟨hscore, ?_, ?_, ?_, ?_, ?_⟩
  · rw [hlevel]
    exact (calculate_risk_level_iff _).1
  · rw [hlevel]
    exact (calculate_risk_level_iff _).2.1
  · rw [hlevel]
    exact (calculate_risk_level_iff _).2.2.1
  · rw [hlevel]
    exact (calculate_risk_level_iff _).2.2.2
  · have hrem : (recalculate_score rs).requires_remediation = decide ((recalculate_score rs).score > 70) := by
      unfold recalculate_score
      rfl
    rw [hrem]
    exact decide_eq_true_iff

/-- Result of `QuizViewSet._calculate_quiz_result`
(`apps/campaigns/views.py` lines 437-480): the fields the risk classification
depends on. -/
structure QuizResultCalc where
  score : ℚ
  risk_level : RiskLevel
deriving DecidableEq, Repr

/-- `QuizViewSet._determine_risk_level` (`apps/campaigns/views.py`
lines 482-491): first matching rule wins, evaluated in order.  The
`false_positives` argument is accepted but never used by the source. -/
def determine_risk_level (score : ℚ) (phishing_missed : Nat) (false_positives : Nat) : RiskLevel :=
  if 90 ≤ score ∧ phishing_missed = 0 then .LOW
  else if 70 ≤ score ∧ phishing_missed ≤ 1 then .MEDIUM
  else if 50 ≤ score ∨ phishing_missed ≤ 3 then .HIGH
  else .CRITICAL

/-- The score/risk-level part of `QuizViewSet._calculate_quiz_result`:
`score = (correct_answers / total_questions) * 100 if total_questions > 0
else 0`, then `_determine_risk_level(score, phishing_missed,
false_positives)`. -/
def calculate_quiz_result (total_questions correct_answers phishing_missed false_positives : Nat) :
    QuizResultCalc :=
  let score : ℚ :=
    if 0 < total_questions then (correct_answers : ℚ) / total_questions * 100 else 0
  { score := score
    risk_level := determine_risk_level score phishing_missed false_positives }

/-- `QuizResult.passed` (`apps/campaigns/models.py` lines 326-329):
`score >= 70`. -/
def quiz_passed (score : ℚ) : Bool := decide (70 ≤ score)

theorem determine_risk_level_iff (s : ℚ) (missed fp : Nat) :
    (determine_risk_level s missed fp = .LOW ↔ 90 ≤ s ∧ missed = 0)
    ∧ (determine_risk_level s missed fp = .MEDIUM ↔
        ¬(90 ≤ s ∧ missed = 0) ∧ (70 ≤ s ∧ missed ≤ 1))
    ∧ (determine_risk_level s missed fp = .HIGH ↔
        ¬(90 ≤ s ∧ missed = 0) ∧ ¬(70 ≤ s ∧ missed ≤ 1) ∧ (50 ≤ s ∨ missed ≤ 3))
    ∧ (determine_risk_level s missed fp = .CRITICAL ↔
        ¬(90 ≤ s ∧ missed = 0) ∧ ¬(70 ≤ s ∧ missed ≤ 1) ∧ ¬(50 ≤ s ∨ missed ≤ 3)) := by
  unfold determine_risk_level
  split_ifs <;> simp_all

/-- C8: for every completed quiz the calculated result has
`score = correct_answers / total_questions * 100` (0 when there are no
questions); the risk level follows the first matching rule in order
(LOW if score ≥ 90 and missed = 0; MEDIUM if score ≥ 70 and missed ≤ 1;
HIGH if score ≥ 50 or missed ≤ 3; else CRITICAL); and `passed` holds iff
score ≥ 70, independently of the tier. -/
theorem quiz_result_calculation (total correct missed fp : Nat) :
    (calculate_quiz_result total correct missed fp).score
      = (if total = 0 then 0 else (correct : ℚ) / total * 100)
    ∧ ((calculate_quiz_result total correct missed fp).risk_level = .LOW ↔
        90 ≤ (calculate_quiz_result total correct missed fp).score ∧ missed = 0)
    ∧ ((calculate_quiz_result total correct missed fp).risk_level = .MEDIUM ↔
        ¬(90 ≤ (calculate_quiz_result total correct missed fp).score ∧ missed = 0)
        ∧ (70 ≤ (calculate_quiz_result total correct missed fp).score ∧ missed ≤ 1))
    ∧ ((calculate_quiz_result total correct missed fp).risk_level = .HIGH ↔
        ¬(90 ≤ (calculate_quiz_result total correct missed fp).score ∧ missed = 0)
        ∧ ¬(70 ≤ (calculate_quiz_result total correct missed fp).score ∧ missed ≤ 1)
        ∧ (50 ≤ (calculate_quiz_result total correct missed fp).score ∨ missed ≤ 3))
    ∧ ((calculate_quiz_result total correct missed fp).risk_level = .CRITICAL ↔
        ¬(90 ≤ (calculate_quiz_result total correct missed fp).score ∧ missed = 0)
        ∧ ¬(70 ≤ (calculate_quiz_result total correct missed fp).score ∧ missed ≤ 1)
        ∧ ¬(50 ≤ (calculate_quiz_result total correct missed fp).score ∨ missed ≤ 3))
    ∧ (quiz_passed (calculate_quiz_result total correct missed fp).score = true ↔
        70 ≤ (calculate_quiz_result total correct missed fp).score) := by
  have hscore : (calculate_quiz_result total correct missed fp).score
      = (if total = 0 then 0 else (correct : ℚ) / total * 100) := by
    unfold calculate_quiz_result
    rcases Nat.eq_zero_or_pos total with h | h
    · simp [h]
    · simp [h, Nat.pos_iff_ne_zero.mp h]
  have hlevel : (calculate_quiz_result total correct missed fp).risk_level
      = determine_risk_level (calculate_quiz_result total correct missed fp).score missed fp := by
    unfold calculate_quiz_result
    rfl
  refine ⟨hscore, ?_, ?_, ?_, ?_, ?_⟩
  · rw [hlevel]
    exact (determine_risk_level_iff _ missed fp).1
  · rw [hlevel]
    exact (determine_risk_level_iff _ missed fp).2.1
  · rw [hlevel]
    exact (determine_risk_level_iff _ missed fp).2.2.1
  · rw [hlevel]
    exact (determine_risk_level_iff _ missed fp).2.2.2
  · exact decide_eq_true_iff

/-- `TrackingEvent.event_type` choices (`apps/simulations/models.py`
lines 489-498). -/
inductive EventType
  | EMAIL_SENT
  | EMAIL_DELIVERED
  | EMAIL_BOUNCED
  | EMAIL_OPENED
  | LINK_CLICKED
  | CREDENTIALS_ENTERED
  | EMAIL_REPORTED
  | LANDING_PAGE_VIEWED
deriving DecidableEq, Repr

/-- The four event types relevant to risk scoring
(`apps/training/signals.py` line 190). -/
def EventType.isRelevant : EventType → Bool
  | .EMAIL_OPENED => true
  | .LINK_CLICKED => true
  | .CREDENTIALS_ENTERED => true
  | .EMAIL_REPORTED => true
  | _ => false

/-- `EmailSimulation.status` choices (`apps/simulations/models.py`
lines 342-348). -/
inductive SimStatus
  | PENDING
  | SENT
  | DELIVERED
  | BOUNCED
  | FAILED
deriving DecidableEq, Repr

/-- The tracking fields of one `EmailSimulation` row
(`apps/simulations/models.py`, class `EmailSimulation`): status, the four
monotone flags and their first-occurrence timestamps.  Timestamps are modelled
as `Option Nat` (null / a time value). -/
structure EmailSimulation where
  status : SimStatus := .PENDING
  sent_at : Option Nat := none
  was_opened : Bool := false
  was_clicked : Bool := false
  was_reported : Bool := false
  credentials_entered : Bool := false
  first_opened_at : Option Nat := none
  clicked_at : Option Nat := none
  reported_at : Option Nat := none
  credentials_entered_at : Option Nat := none
deriving DecidableEq, Repr

/-- `TrackingEvent._update_simulation_stats` (`apps/simulations/models.py`
lines 568-606): promote PENDING to SENT on any of the four interaction events
(backfilling `sent_at` once), then set the matching flag and its timestamp
only if the flag is still false. -/
def update_simulation_stats (e : EventType) (created_at : Nat) (sim : EmailSimulation) :
    EmailSimulation :=
  let sim :=
    if sim.status = .PENDING ∧ e.isRelevant then
      { sim with
          status := .SENT
          sent_at := if sim.sent_at.isSome then sim.sent_at else some created_at }
    else sim
  if e = .EMAIL_OPENED ∧ sim.was_opened = false then
    { sim with was_opened := true, first_opened_at := some created_at }
  else if e = .LINK_CLICKED ∧ sim.was_clicked = false then
    { sim with was_clicked := true, clicked_at := some created_at }
  else if e = .CREDENTIALS_ENTERED ∧ sim.credentials_entered = false then
    { sim with credentials_entered := true, credentials_entered_at := some created_at }
  else if e = .EMAIL_REPORTED ∧ sim.was_reported = false then
    { sim with was_reported := true, reported_at := some created_at }
  else sim

/-- A sequence of tracking events (type and `created_at`) applied to one
simulation through `_update_simulation_stats`. -/
def runSimEvents (es : List (EventType × Nat)) (sim : EmailSimulation) : EmailSimulation :=
  es.foldl (fun s p => update_simulation_stats p.1 p.2 s) sim

theorem uss_opened_mono (e : EventType) (t : Nat) (sim : EmailSimulation)
    (h : sim.was_opened = true) :
    (update_simulation_stats e t sim).was_opened = true
    ∧ (update_simulation_stats e t sim).first_opened_at = sim.first_opened_at := by
  unfold update_simulation_stats
  cases e <;> dsimp only <;> split_ifs <;> simp_all

theorem uss_clicked_mono (e : EventType) (t : Nat) (sim : EmailSimulation)
    (h : sim.was_clicked = true) :
    (update_simulation_stats e t sim).was_clicked = true
    ∧ (update_simulation_stats e t sim).clicked_at = sim.clicked_at := by
  unfold update_simulation_stats
  cases e <;> dsimp only <;> split_ifs <;> simp_all

theorem uss_credentials_mono (e : EventType) (t : Nat) (sim : EmailSimulation)
    (h : sim.credentials_entered = true) :
    (update_simulation_stats e t sim).credentials_entered = true
    ∧ (update_simulation_stats e t sim).credentials_entered_at = sim.credentials_entered_at := by
  unfold update_simulation_stats
  cases e <;> dsimp only <;> split_ifs <;> simp_all

theorem uss_reported_mono (e : EventType) (t : Nat) (sim : EmailSimulation)
    (h : sim.was_reported = true) :
    (update_simulation_stats e t sim).was_reported = true
    ∧ (update_simulation_stats e t sim).reported_at = sim.reported_at := by
  unfold update_simulation_stats
  cases e <;> dsimp only <;> split_ifs <;> simp_all

/-- C5: for every `EmailSimulation` and every sequence of tracking events,
each of the four flags (`was_opened`, `was_clicked`, `credentials_entered`,
`was_reported`), once true, stays true, and while the flag is set the paired
first-occurrence timestamp is never changed again; moreover the first event
of each type (arriving with the flag still false) sets the flag and writes the
event's `created_at` into the paired timestamp. -/
theorem simulation_flags_monotone (es : List (EventType × Nat)) (t : Nat) (sim : EmailSimulation) :
    (sim.was_opened = true →
      (runSimEvents es sim).was_opened = true
      ∧ (runSimEvents es sim).first_opened_at = sim.first_opened_at)
    ∧ (sim.was_clicked = true →
      (runSimEvents es sim).was_clicked = true
      ∧ (runSimEvents es sim).clicked_at = sim.clicked_at)
    ∧ (sim.credentials_entered = true →
      (runSimEvents es sim).credentials_entered = true
      ∧ (runSimEvents es sim).credentials_entered_at = sim.credentials_entered_at)
    ∧ (sim.was_reported = true →
      (runSimEvents es sim).was_reported = true
      ∧ (runSimEvents es sim).reported_at = sim.reported_at)
    ∧ (sim.was_opened = false →
      (update_simulation_stats .EMAIL_OPENED t sim).was_opened = true
      ∧ (update_simulation_stats .EMAIL_OPENED t sim).first_opened_at = some t)
    ∧ (sim.was_clicked = false →
      (update_simulation_stats .LINK_CLICKED t sim).was_clicked = true
      ∧ (update_simulation_stats .LINK_CLICKED t sim).clicked_at = some t)
    ∧ (sim.credentials_entered = false →
      (update_simulation_stats .CREDENTIALS_ENTERED t sim).credentials_entered = true
      ∧ (update_simulation_stats .CREDENTIALS_ENTERED t sim).credentials_entered_at = some t)
    ∧ (sim.was_reported = false →
      (update_simulation_stats .EMAIL_REPORTED t sim).was_reported = true
      ∧ (update_simulation_stats .EMAIL_REPORTED t sim).reported_at = some t) := by
  have hrun : ∀ (es : List (EventType × Nat)) (s : EmailSimulation),
      (s.was_opened = true →
        (runSimEvents es s).was_opened = true
        ∧ (runSimEvents es s).first_opened_at = s.first_opened_at)
      ∧ (s.was_clicked = true →
        (runSimEvents es s).was_clicked = true
        ∧ (runSimEvents es s).clicked_at = s.clicked_at)
      ∧ (s.credentials_entered = true →
        (runSimEvents es s).credentials_entered = true
        ∧ (runSimEvents es s).credentials_entered_at = s.credentials_entered_at)
      ∧ (s.was_reported = true →
        (runSimEvents es s).was_reported = true
        ∧ (runSimEvents es s).reported_at = s.reported_at) := by
    intro es
    induction es with
    | nil => intro s; simp [runSimEvents]
    | cons p rest ih =>
      intro s
      have hrest := ih (update_simulation_stats p.1 p.2 s)
      have hfold : runSimEvents (p :: rest) s
          = runSimEvents rest (update_simulation_stats p.1 p.2 s) := by
        simp [runSimEvents]
      refine ⟨?_, ?_, ?_, ?_⟩
      · intro h
        obtain ⟨h1, h2⟩ := uss_opened_mono p.1 p.2 s h
        obtain ⟨h3, h4⟩ := hrest.1 h1
        exact ⟨by rw [hfold]; exact h3, by rw [hfold, h4, h2]⟩
      · intro h
        obtain ⟨h1, h2⟩ := uss_clicked_mono p.1 p.2 s h
        obtain ⟨h3, h4⟩ := hrest.2.1 h1
        exact ⟨by rw [hfold]; exact h3, by rw [hfold, h4, h2]⟩
      · intro h
        obtain ⟨h1, h2⟩ := uss_credentials_mono p.1 p.2 s h
        obtain ⟨h3, h4⟩ := hrest.2.2.1 h1
        exact ⟨by rw [hfold]; exact h3, by rw [hfold, h4, h2]⟩
      · intro h
        obtain ⟨h1, h2⟩ := uss_reported_mono p.1 p.2 s h
        obtain ⟨h3, h4⟩ := hrest.2.2.2 h1
        exact ⟨by rw [hfold]; exact h3, by rw [hfold, h4, h2]⟩
  refine ⟨(hrun es sim).1, (hrun es sim).2.1, (hrun es sim).2.2.1, (hrun es sim).2.2.2,
    ?_, ?_, ?_, ?_⟩
  · intro h
    unfold update_simulation_stats
    split_ifs <;> simp_all
  · intro h
    unfold update_simulation_stats
    split_ifs <;> simp_all
  · intro h
    unfold update_simulation_stats
    split_ifs <;> simp_all
  · intro h
    unfold update_simulation_stats
    split_ifs <;> simp_all

/-- C5 witness: the theorem applied to a simulation whose flags are already
set and to a concrete later event sequence - the clicked flag and its
timestamp survive a duplicate click and a late open. -/
theorem simulation_flags_monotone_witness :
    (runSimEvents [(.LINK_CLICKED, 7), (.EMAIL_OPENED, 8)]
      { status := .SENT, sent_at := some 0, was_opened := false, was_clicked := true,
        was_reported := false, credentials_entered := false, first_opened_at := none,
        clicked_at := some 2, reported_at := none,
        credentials_entered_at := none }).was_clicked = true
    ∧ (runSimEvents [(.LINK_CLICKED, 7), (.EMAIL_OPENED, 8)]
      { status := .SENT, sent_at := some 0, was_opened := false, was_clicked := true,
        was_reported := false, credentials_entered := false, first_opened_at := none,
        clicked_at := some 2, reported_at := none,
        credentials_entered_at := none }).clicked_at = some 2 :=
  (simulation_flags_monotone [(.LINK_CLICKED, 7), (.EMAIL_OPENED, 8)] 9
    { status := .SENT, sent_at := some 0, was_opened := false, was_clicked := true,
      was_reported := false, credentials_entered := false, first_opened_at := none,
      clicked_at := some 2, reported_at := none,
      credentials_entered_at := none }).2.1 rfl

/-- One `RiskScoreHistory` row (`apps/training/models.py`, class
`RiskScoreHistory`). -/
structure RiskScoreHistoryRow where
  event_type : String
  previous_score : Int
  new_score : Int
  score_change : Int
  previous_risk_level : RiskLevel
  new_risk_level : RiskLevel
  source_type : String
  source_id : Nat
deriving DecidableEq, Repr

/-- `create_risk_history` (`apps/training/signals.py` lines 47-61) combined
with `RiskScoreHistory.save` (`apps/training/models.py` lines 322-325), which
auto-computes `score_change = new_score - previous_score`. -/
def mkRiskHistoryRow (event_type : String) (previous_score new_score : Int)
    (previous_level new_level : RiskLevel) (source_type : String) (source_id : Nat) :
    RiskScoreHistoryRow :=
  { event_type := event_type
    previous_score := previous_score
    new_score := new_score
    score_change := new_score - previous_score
    previous_risk_level := previous_level
    new_risk_level := new_level
    source_type := source_type
    source_id := source_id }

/-- The `history_event_map` of `update_risk_score_from_simulation`
(`apps/training/signals.py` lines 273-278); the dictionary lookup defaults to
the tracking event type itself. -/
def history_event_map : EventType → String
  | .EMAIL_OPENED => "SIMULATION_OPENED"
  | .LINK_CLICKED => "SIMULATION_CLICKED"
  | .CREDENTIALS_ENTERED => "CREDENTIALS_ENTERED"
  | .EMAIL_REPORTED => "PHISHING_REPORTED"
  | .EMAIL_SENT => "EMAIL_SENT"
  | .EMAIL_DELIVERED => "EMAIL_DELIVERED"
  | .EMAIL_BOUNCED => "EMAIL_BOUNCED"
  | .LANDING_PAGE_VIEWED => "LANDING_PAGE_VIEWED"

/-- `already_has_event` (`apps/training/signals.py` lines 230-237): does the
simulation's event log (excluding the event being processed) contain an event
of the given type. -/
def hasEvent (prior : List EventType) (t : EventType) : Bool :=
  prior.any (fun x => decide (x = t))

/-- `has_prior_relevant_events` (`apps/training/signals.py` lines 212-215). -/
def has_prior_relevant (prior : List EventType) : Bool :=
  prior.any (fun x => x.isRelevant)

/-- `was_bulk_marked_sent` (`apps/training/signals.py` lines 217-225):
status SENT, `sent_at` set, and no EMAIL_SENT tracking event. -/
def was_bulk_marked_sent (sim : EmailSimulation) (prior : List EventType) : Bool :=
  decide (sim.status = .SENT) && sim.sent_at.isSome && !(hasEvent prior .EMAIL_SENT)

/-- `update_risk_score_from_simulation` (`apps/training/signals.py`
lines 175-290), restricted to its effect on the risk-score counters and the
history trail: skip irrelevant event types; increment
`total_simulations_received` unless the simulation was already counted
(prior relevant event, or bulk-marked SENT); increment the per-type counter
unless this event type already occurred for this simulation; recalculate the
score; append one history row.  `prior` is the simulation's tracking-event
log excluding the event being processed, and `source_id` the new event's id. -/
def update_risk_score_from_simulation (source_id : Nat) (e : EventType)
    (prior : List EventType) (sim : EmailSimulation) (rs : RiskScore)
    (history : List RiskScoreHistoryRow) : RiskScore × List RiskScoreHistoryRow :=
  if ¬ e.isRelevant then (rs, history)
  else
    let old_score := rs.score
    let old_level := rs.risk_level
    let sim_already_counted := has_prior_relevant prior || was_bulk_marked_sent sim prior
    let rs :=
      if sim_already_counted then rs
      else { rs with total_simulations_received := rs.total_simulations_received + 1 }
    let rs :=
      match e with
      | .EMAIL_OPENED =>
        if hasEvent prior .EMAIL_OPENED then rs
        else { rs with simulations_opened := rs.simulations_opened + 1 }
      | .LINK_CLICKED =>
        if hasEvent prior .LINK_CLICKED then rs
        else { rs with simulations_clicked := rs.simulations_clicked + 1 }
      | .CREDENTIALS_ENTERED =>
        if hasEvent prior .CREDENTIALS_ENTERED then rs
        else { rs with credentials_entered := rs.credentials_entered + 1 }
      | .EMAIL_REPORTED =>
        if hasEvent prior .EMAIL_REPORTED then rs
        else { rs with simulations_reported := rs.simulations_reported + 1 }
      | _ => rs
    let rs := recalculate_score rs
    (rs, history ++ [mkRiskHistoryRow (history_event_map e) old_score rs.score old_level
      rs.risk_level "TrackingEvent" source_id])

/-- `update_risk_score_from_quiz` (`apps/training/signals.py` lines 112-166),
restricted to its effect on the risk-score counters and the history trail:
add the quiz's totals to the cumulative counters, recalculate, and append one
history row (QUIZ_COMPLETED when the quiz score is at least 70, QUIZ_FAILED
otherwise). -/
def update_risk_score_from_quiz (source_id : Nat) (quiz_total quiz_correct quiz_missed : Nat)
    (quiz_score : ℚ) (rs : RiskScore) (history : List RiskScoreHistoryRow) :
    RiskScore × List RiskScoreHistoryRow :=
  let old_score := rs.score
  let old_level := rs.risk_level
  let rs :=
    { rs with
        total_quizzes_taken := rs.total_quizzes_taken + 1
        total_quiz_questions := rs.total_quiz_questions + quiz_total
        correct_quiz_answers := rs.correct_quiz_answers + quiz_correct
        phishing_emails_missed := rs.phishing_emails_missed + quiz_missed }
  let rs := recalculate_score rs
  let event_type := if 70 ≤ quiz_score then "QUIZ_COMPLETED" else "QUIZ_FAILED"
  (rs, history ++ [mkRiskHistoryRow event_type old_score rs.score old_level rs.risk_level
    "QuizResult" source_id])

/-- The state reached by one simulation's tracking pipeline: the simulation's
event log, the simulation row, the employee's risk score and its history
trail. -/
structure SimAggState where
  events : List EventType
  sim : EmailSimulation
  rs : RiskScore
  history : List RiskScoreHistoryRow
deriving DecidableEq, Repr

/-- `TrackingEvent.save` (`apps/simulations/models.py` lines 559-566) for one
simulation: the new event row is inserted (appended to the log), the
`post_save` signal `update_risk_score_from_simulation` runs (its queries
exclude the event being processed, i.e. see the prior log), then
`_update_simulation_stats` updates the simulation row.  The event's
`created_at` doubles as its id. -/
def applyTrackingEvent (e : EventType) (t : Nat) (st : SimAggState) : SimAggState :=
  let pair := update_risk_score_from_simulation t e st.events st.sim st.rs st.history
  { events := st.events ++ [e]
    sim := update_simulation_stats e t st.sim
    rs := pair.1
    history := pair.2 }

/-- A sequence of tracking events applied to one simulation's pipeline. -/
def runEvents (es : List (EventType × Nat)) (st : SimAggState) : SimAggState :=
  es.foldl (fun s p => applyTrackingEvent p.1 p.2 s) st

/-- The per-event-type risk-score counter
(`simulations_opened` / `simulations_clicked` / `credentials_entered` /
`simulations_reported`). -/
def counterOf : EventType → RiskScore → Nat
  | .EMAIL_OPENED, rs => rs.simulations_opened
  | .LINK_CLICKED, rs => rs.simulations_clicked
  | .CREDENTIALS_ENTERED, rs => rs.credentials_entered
  | .EMAIL_REPORTED, rs => rs.simulations_reported
  | _, _ => 0

/-- A freshly created simulation with a freshly created risk score and no
tracking events. -/
def initialAggState : SimAggState :=
  { events := [], sim := {}, rs := {}, history := [] }

theorem recalculate_score_counters (rs : RiskScore) :
    (recalculate_score rs).total_simulations_received = rs.total_simulations_received
    ∧ (recalculate_score rs).simulations_opened = rs.simulations_opened
    ∧ (recalculate_score rs).simulations_clicked = rs.simulations_clicked
    ∧ (recalculate_score rs).credentials_entered = rs.credentials_entered
    ∧ (recalculate_score rs).simulations_reported = rs.simulations_reported := by
  exact ⟨rfl, rfl, rfl, rfl, rfl⟩

theorem urs_total_step (source_id : Nat) (e : EventType) (prior : List EventType)
    (sim : EmailSimulation) (rs : RiskScore) (history : List RiskScoreHistoryRow) :
    (update_risk_score_from_simulation source_id e prior sim rs history).1.total_simulations_received
      = rs.total_simulations_received
    ∨ ((update_risk_score_from_simulation source_id e prior sim rs history).1.total_simulations_received
        = rs.total_simulations_received + 1
      ∧ e.isRelevant = true) := by
  unfold update_risk_score_from_simulation
  cases e <;> dsimp only [EventType.isRelevant] <;> split_ifs <;>
    simp_all [recalculate_score_counters]

theorem urs_total_of_prior (source_id : Nat) (e : EventType) (prior : List EventType)
    (sim : EmailSimulation) (rs : RiskScore) (history : List RiskScoreHistoryRow)
    (h : has_prior_relevant prior = true) :
    (update_risk_score_from_simulation source_id e prior sim rs history).1.total_simulations_received
      = rs.total_simulations_received := by
  unfold update_risk_score_from_simulation
  cases e <;> dsimp only [EventType.isRelevant] <;> split_ifs <;>
    simp_all [recalculate_score_counters]

theorem urs_counter_of_dup (source_id : Nat) (e : EventType) (prior : List EventType)
    (sim : EmailSimulation) (rs : RiskScore) (history : List RiskScoreHistoryRow)
    (hrel : e.isRelevant = true) (hdup : hasEvent prior e = true) :
    counterOf e (update_risk_score_from_simulation source_id e prior sim rs history).1
      = counterOf e rs := by
  unfold update_risk_score_from_simulation
  cases e <;> simp_all [EventType.isRelevant] <;> split_ifs <;>
    simp_all [counterOf, recalculate_score_counters]

theorem has_prior_relevant_append (xs : List EventType) (e : EventType) :
    has_prior_relevant (xs ++ [e]) = (has_prior_relevant xs || e.isRelevant) := by
  simp [has_prior_relevant]

theorem hasEvent_append_self (xs : List EventType) (e : EventType) :
    hasEvent (xs ++ [e]) e = true := by
  simp [hasEvent]

theorem applyTrackingEvent_rs (e : EventType) (t : Nat) (st : SimAggState) :
    (applyTrackingEvent e t st).rs
      = (update_risk_score_from_simulation t e st.events st.sim st.rs st.history).1 := rfl

theorem applyTrackingEvent_events (e : EventType) (t : Nat) (st : SimAggState) :
    (applyTrackingEvent e t st).events = st.events ++ [e] := rfl

theorem runEvents_total_frozen (es : List (EventType × Nat)) (st : SimAggState)
    (h : has_prior_relevant st.events = true) :
    (runEvents es st).rs.total_simulations_received = st.rs.total_simulations_received := by
  induction es generalizing st with
  | nil => simp [runEvents]
  | cons p rest ih =>
    have hfold : runEvents (p :: rest) st = runEvents rest (applyTrackingEvent p.1 p.2 st) := by
      simp [runEvents]
    have hstep : (applyTrackingEvent p.1 p.2 st).rs.total_simulations_received
        = st.rs.total_simulations_received := by
      rw [applyTrackingEvent_rs]
      exact urs_total_of_prior p.2 p.1 st.events st.sim st.rs st.history h
    have hprior : has_prior_relevant (applyTrackingEvent p.1 p.2 st).events = true := by
      rw [applyTrackingEvent_events, has_prior_relevant_append, h]
      simp
    rw [hfold, ih _ hprior, hstep]

theorem runEvents_total_at_most_once (es : List (EventType × Nat)) (st : SimAggState) :
    (runEvents es st).rs.total_simulations_received ≤ st.rs.total_simulations_received + 1 := by
  induction es generalizing st with
  | nil => simp [runEvents]
  | cons p rest ih =>
    have hfold : runEvents (p :: rest) st = runEvents rest (applyTrackingEvent p.1 p.2 st) := by
      simp [runEvents]
    rcases urs_total_step p.2 p.1 st.events st.sim st.rs st.history with hsame | ⟨hinc, hrel⟩
    · have := ih (applyTrackingEvent p.1 p.2 st)
      rw [hfold]
      rw [applyTrackingEvent_rs] at *
      omega
    · have hprior : has_prior_relevant (applyTrackingEvent p.1 p.2 st).events = true := by
        rw [applyTrackingEvent_events, has_prior_relevant_append, hrel]
        simp
      have hfr := runEvents_total_frozen rest (applyTrackingEvent p.1 p.2 st) hprior
      rw [hfold, hfr, applyTrackingEvent_rs, hinc]

/-- C2: delivering a second tracking event of the same type for the same
simulation leaves the matching per-type risk counter unchanged and does not
increment `total_simulations_received` again; across any sequence of events
for one simulation `total_simulations_received` grows by at most 1; and in
particular delivering the same CREDENTIALS_ENTERED event twice to a fresh
simulation increments `credentials_entered` exactly once and
`total_simulations_received` exactly once across both calls. -/
theorem risk_aggregator_exactly_once (st : SimAggState) (e : EventType) (t1 t2 : Nat)
    (es : List (EventType × Nat)) (hrel : e.isRelevant = true) :
    counterOf e (applyTrackingEvent e t2 (applyTrackingEvent e t1 st)).rs
      = counterOf e (applyTrackingEvent e t1 st).rs
    ∧ (applyTrackingEvent e t2 (applyTrackingEvent e t1 st)).rs.total_simulations_received
      = (applyTrackingEvent e t1 st).rs.total_simulations_received
    ∧ (runEvents es st).rs.total_simulations_received
      ≤ st.rs.total_simulations_received + 1
    ∧ (applyTrackingEvent .CREDENTIALS_ENTERED 1
        (applyTrackingEvent .CREDENTIALS_ENTERED 0 initialAggState)).rs.credentials_entered = 1
    ∧ (applyTrackingEvent .CREDENTIALS_ENTERED 1
        (applyTrackingEvent .CREDENTIALS_ENTERED 0 initialAggState)).rs.total_simulations_received
      = 1 := by
  refine ⟨?_, ?_, runEvents_total_at_most_once es st, by decide, by decide⟩
  · rw [applyTrackingEvent_rs e t2]
    exact urs_counter_of_dup t2 e (applyTrackingEvent e t1 st).events
      (applyTrackingEvent e t1 st).sim (applyTrackingEvent e t1 st).rs
      (applyTrackingEvent e t1 st).history hrel
      (by rw [applyTrackingEvent_events]; exact hasEvent_append_self st.events e)
  · rw [applyTrackingEvent_rs e t2]
    exact urs_total_of_prior t2 e (applyTrackingEvent e t1 st).events
      (applyTrackingEvent e t1 st).sim (applyTrackingEvent e t1 st).rs
      (applyTrackingEvent e t1 st).history
      (by rw [applyTrackingEvent_events, has_prior_relevant_append, hrel]; simp)

/-- C2 witness: the theorem instantiated at the fresh simulation state, the
CREDENTIALS_ENTERED event type and a concrete later event list. -/
theorem risk_aggregator_exactly_once_witness :
    EventType.isRelevant .CREDENTIALS_ENTERED = true
    ∧ (runEvents [(.CREDENTIALS_ENTERED, 0), (.CREDENTIALS_ENTERED, 1), (.EMAIL_OPENED, 2)]
        initialAggState).rs.total_simulations_received
      ≤ initialAggState.rs.total_simulations_received + 1
    ∧ (applyTrackingEvent .CREDENTIALS_ENTERED 1
        (applyTrackingEvent .CREDENTIALS_ENTERED 0 initialAggState)).rs.credentials_entered = 1 :=
  ⟨by decide,
    (risk_aggregator_exactly_once initialAggState .CREDENTIALS_ENTERED 0 1
      [(.CREDENTIALS_ENTERED, 0), (.CREDENTIALS_ENTERED, 1), (.EMAIL_OPENED, 2)]
      (by decide)).2.2.1,
    (risk_aggregator_exactly_once initialAggState .CREDENTIALS_ENTERED 0 1
      [] (by decide)).2.2.2.1⟩

/-- `SimulationCampaign.status` choices (`apps/simulations/models.py`). -/
inductive CampaignStatus
  | DRAFT
  | SCHEDULED
  | IN_PROGRESS
  | COMPLETED
  | PAUSED
  | CANCELLED
deriving DecidableEq, Repr

/-- The rollup fields of a `SimulationCampaign` row
(`apps/simulations/models.py`, class `SimulationCampaign`). -/
structure SimulationCampaign where
  status : CampaignStatus := .DRAFT
  sent_at : Option Nat := none
  total_sent : Nat := 0
  total_opened : Nat := 0
  total_clicked : Nat := 0
  total_reported : Nat := 0
  total_credentials_entered : Nat := 0
deriving DecidableEq, Repr

/-- `campaign.email_simulations.exclude(status__in=['PENDING','FAILED']).count()`. -/
def countNonPendingFailed (sims : List EmailSimulation) : Nat :=
  (sims.filter (fun s => decide (s.status ≠ .PENDING ∧ s.status ≠ .FAILED))).length

/-- `campaign.email_simulations.filter(was_opened=True).count()`. -/
def countOpened (sims : List EmailSimulation) : Nat :=
  (sims.filter (fun s => s.was_opened)).length

/-- `campaign.email_simulations.filter(was_clicked=True).count()`. -/
def countClicked (sims : List EmailSimulation) : Nat :=
  (sims.filter (fun s => s.was_clicked)).length

/-- `campaign.email_simulations.filter(credentials_entered=True).count()`. -/
def countCredentials (sims : List EmailSimulation) : Nat :=
  (sims.filter (fun s => s.credentials_entered)).length

/-- `campaign.email_simulations.filter(was_reported=True).count()`. -/
def countReported (sims : List EmailSimulation) : Nat :=
  (sims.filter (fun s => s.was_reported)).length

/-- `TrackingEvent._update_campaign_stats` (`apps/simulations/models.py`
lines 608-635): always recount `total_sent` from the simulation statuses,
recount the counter matching the event type, then promote a DRAFT/SCHEDULED
campaign with `total_sent > 0` to IN_PROGRESS (setting `sent_at` once).
`sims` is the campaign's simulation list at recount time (i.e. after
`_update_simulation_stats` ran for this event). -/
def update_campaign_stats (e : EventType) (t : Nat) (c : SimulationCampaign)
    (sims : List EmailSimulation) : SimulationCampaign :=
  let c := { c with total_sent := countNonPendingFailed sims }
  let c :=
    match e with
    | .EMAIL_OPENED => { c with total_opened := countOpened sims }
    | .LINK_CLICKED => { c with total_clicked := countClicked sims }
    | .CREDENTIALS_ENTERED => { c with total_credentials_entered := countCredentials sims }
    | .EMAIL_REPORTED => { c with total_reported := countReported sims }
    | _ => c
  if (c.status = .DRAFT ∨ c.status = .SCHEDULED) ∧ 0 < c.total_sent then
    { c with
        status := .IN_PROGRESS
        sent_at := if c.sent_at.isSome then c.sent_at else some t }
  else c

/-- `SimulationCampaignViewSet.send` with `send_immediately=False`
(`apps/simulations/views.py` lines 286-330, scheduling branch): create `n`
new PENDING simulations, set `campaign.total_sent` to the number of created
simulations, and mark the campaign SCHEDULED. -/
def campaign_send_scheduled (c : SimulationCampaign) (sims : List EmailSimulation) (n : Nat) :
    SimulationCampaign × List EmailSimulation :=
  ({ c with total_sent := n, status := .SCHEDULED },
    sims ++ List.replicate n ({} : EmailSimulation))

/-- The campaign part of `mark_campaign_emails_sent`
(`apps/simulations/services.py` lines 301-321): flip every PENDING simulation
to SENT (stamping `sent_at`), then set `total_sent` to the count of SENT
simulations and the campaign to IN_PROGRESS. -/
def mark_campaign_emails_sent (c : SimulationCampaign) (sims : List EmailSimulation)
    (now : Nat) : SimulationCampaign × List EmailSimulation :=
  let sims2 := sims.map (fun s =>
    if s.status = .PENDING then { s with status := .SENT, sent_at := some now } else s)
  ({ c with
      total_sent := (sims2.filter (fun s => decide (s.status = .SENT))).length
      status := .IN_PROGRESS
      sent_at := some now },
    sims2)

/-- The per-employee risk-score part of `mark_campaign_emails_sent`
(`apps/simulations/services.py` lines 323-344): for an employee whose
simulation was PENDING, increment `total_simulations_received` and save with
`update_fields` - no score recalculation and no `RiskScoreHistory` row is
written on this path. -/
def mark_sent_risk_update (rs : RiskScore) (history : List RiskScoreHistoryRow) :
    RiskScore × List RiskScoreHistoryRow :=
  ({ rs with total_simulations_received := rs.total_simulations_received + 1 }, history)

/-- C3: the claim is FALSE on the code: sending a campaign to one employee
without immediate dispatch (the scheduling branch of
`SimulationCampaignViewSet.send`) sets `total_sent = 1` while the single
created simulation is still PENDING, so `total_sent` differs from the number
of simulations with status outside {PENDING, FAILED} (which is 0); likewise
`mark_campaign_emails_sent` counts only SENT rows, so a campaign holding one
DELIVERED simulation ends with `total_sent = 0` while the non-PENDING/FAILED
count is 1. -/
theorem total_sent_invariant_counterexample :
    ¬((campaign_send_scheduled {} [] 1).1.total_sent
        = countNonPendingFailed (campaign_send_scheduled {} [] 1).2)
    ∧ ¬((mark_campaign_emails_sent {} [{ status := .DELIVERED }] 5).1.total_sent
        = countNonPendingFailed (mark_campaign_emails_sent {} [{ status := .DELIVERED }] 5).2) := by
  constructor
  · decide
  · decide

/-- C3 (amended): `total_sent` equals the number of the campaign's
simulations whose status is outside {PENDING, FAILED} after every
tracking-event recompute (`_update_campaign_stats` recounts it from the
simulation rows rather than incrementing), but not in every reachable state:
the campaign-send action sets `total_sent` to the number of created
simulations (all still PENDING when scheduling without immediate dispatch)
and the bulk mark-sent service sets it to the count of SENT rows only, both
of which can disagree with the invariant. -/
theorem total_sent_recompute (e : EventType) (t : Nat) (c : SimulationCampaign)
    (sims : List EmailSimulation) :
    (update_campaign_stats e t c sims).total_sent = countNonPendingFailed sims := by
  unfold update_campaign_stats
  cases e <;> dsimp only <;> split_ifs <;> rfl

/-- C6: the claim is FALSE on the code: the bulk mark-sent path mutates the
RiskScore (incrementing `total_simulations_received`) yet writes no
`RiskScoreHistory` row at all. -/
theorem risk_history_bulk_counterexample :
    (mark_sent_risk_update {} []).1 ≠ ({} : RiskScore)
    ∧ (mark_sent_risk_update {} []).2.length = 0 := by
  constructor
  · decide
  · decide

/-- C6 (amended): risk-score mutations performed by the quiz and
simulation-event signal handlers each append exactly one RiskScoreHistory row
capturing the previous and new score, the previous and new risk level, and a
source reference, even when the score change is 0, and the stored
`score_change` always equals `new_score - previous_score`; the bulk
mark-sent path, however, mutates the RiskScore without writing any history
row. -/
theorem risk_history_audit (source_id : Nat) (e : EventType) (prior : List EventType)
    (sim : EmailSimulation) (rs : RiskScore) (history : List RiskScoreHistoryRow)
    (qid qt qc qm : Nat) (qs : ℚ)
    (et : String) (ps ns : Int) (pl nl : RiskLevel) (stt : String) (sid : Nat)
    (hrel : e.isRelevant = true) :
    (update_risk_score_from_simulation source_id e prior sim rs history).2
      = history ++ [mkRiskHistoryRow (history_event_map e) rs.score
          (update_risk_score_from_simulation source_id e prior sim rs history).1.score
          rs.risk_level
          (update_risk_score_from_simulation source_id e prior sim rs history).1.risk_level
          "TrackingEvent" source_id]
    ∧ (update_risk_score_from_quiz qid qt qc qm qs rs history).2
      = history ++ [mkRiskHistoryRow (if 70 ≤ qs then "QUIZ_COMPLETED" else "QUIZ_FAILED")
          rs.score (update_risk_score_from_quiz qid qt qc qm qs rs history).1.score
          rs.risk_level (update_risk_score_from_quiz qid qt qc qm qs rs history).1.risk_level
          "QuizResult" qid]
    ∧ (mkRiskHistoryRow et ps ns pl nl stt sid).score_change = ns - ps
    ∧ (mark_sent_risk_update rs history).2 = history
    ∧ (mark_sent_risk_update rs history).1.total_simulations_received
      = rs.total_simulations_received + 1 := by
  refine ⟨?_, ?_, rfl, rfl, rfl⟩
  · unfold update_risk_score_from_simulation
    cases e <;> simp_all [EventType.isRelevant]
  · unfold update_risk_score_from_quiz
    split_ifs <;> rfl

/-- C6 witness: the amended theorem applied at a concrete relevant event. -/
theorem risk_history_audit_witness :
    EventType.isRelevant .LINK_CLICKED = true
    ∧ (update_risk_score_from_simulation 7 .LINK_CLICKED [] {} {} []).2
      = [] ++ [mkRiskHistoryRow (history_event_map .LINK_CLICKED) (RiskScore.score {})
          (update_risk_score_from_simulation 7 .LINK_CLICKED [] {} {} []).1.score
          (RiskScore.risk_level {})
          (update_risk_score_from_simulation 7 .LINK_CLICKED [] {} {} []).1.risk_level
          "TrackingEvent" 7] :=
  ⟨by decide,
    (risk_history_audit 7 .LINK_CLICKED [] {} {} [] 3 10 7 1 80 "MANUAL_ADJUSTMENT" 1 2
      .LOW .HIGH "QuizResult" 4 (by decide)).1⟩

/-- The request context seen by the public tracking endpoints
(`apps/simulations/views.py`): whether the token resolved to a simulation,
the campaign's status and tracking toggles, and whether the simulation was
already reported. -/
structure TrackingRequestCtx where
  simFound : Bool
  campaign_status : CampaignStatus
  track_email_opens : Bool
  track_link_clicks : Bool
  track_credentials : Bool
  was_reported : Bool
deriving DecidableEq, Repr

/-- Whether each public endpoint creates a `TrackingEvent` (i.e. mutates
simulation and campaign state), from the source:
`track_pixel_view` (lines 828-868) requires the simulation, campaign status
IN_PROGRESS/SCHEDULED and `track_email_opens`;
`track_link_click_view` (lines 871-906) requires the simulation, campaign
status IN_PROGRESS/SCHEDULED and `track_link_clicks`;
`report_phishing_view` (lines 983-1028) requires only the simulation and that
it was not already reported - it never checks the campaign status;
`credentials_submitted_view` (lines 1031-1087) requires only the simulation
and `track_credentials` - it never checks the campaign status. -/
def event_accepted (e : EventType) (ctx : TrackingRequestCtx) : Bool :=
  match e with
  | .EMAIL_OPENED =>
    ctx.simFound
      && (decide (ctx.campaign_status = .IN_PROGRESS) || decide (ctx.campaign_status = .SCHEDULED))
      && ctx.track_email_opens
  | .LINK_CLICKED =>
    ctx.simFound
      && (decide (ctx.campaign_status = .IN_PROGRESS) || decide (ctx.campaign_status = .SCHEDULED))
      && ctx.track_link_clicks
  | .EMAIL_REPORTED => ctx.simFound && !ctx.was_reported
  | .CREDENTIALS_ENTERED => ctx.simFound && ctx.track_credentials
  | _ => false

/-- C4: the claim is FALSE on the code: `report_phishing_view` records an
EMAIL_REPORTED event for an existing, not-yet-reported simulation even when
the campaign is COMPLETED (the claim requires the event to be ignored then),
and `track_pixel_view` ignores an EMAIL_OPENED event on an IN_PROGRESS
campaign when open-tracking is disabled (the claim requires it to be
accepted). -/
theorem event_accept_iff_counterexample :
    ¬(event_accepted .EMAIL_REPORTED
        { simFound := true, campaign_status := .COMPLETED, track_email_opens := true,
          track_link_clicks := true, track_credentials := true, was_reported := false } = true
      ↔ (true = true ∧ (CampaignStatus.COMPLETED = .IN_PROGRESS
          ∨ CampaignStatus.COMPLETED = .SCHEDULED)))
    ∧ ¬(event_accepted .EMAIL_OPENED
        { simFound := true, campaign_status := .IN_PROGRESS, track_email_opens := false,
          track_link_clicks := true, track_credentials := true, was_reported := false } = true
      ↔ (true = true ∧ (CampaignStatus.IN_PROGRESS = .IN_PROGRESS
          ∨ CampaignStatus.IN_PROGRESS = .SCHEDULED))) := by
  constructor
  · decide
  · decide

/-- C4 (amended): an EMAIL_OPENED (resp. LINK_CLICKED) tracking event mutates
state iff the simulation exists, the campaign status is IN_PROGRESS or
SCHEDULED, and open-tracking (resp. click-tracking) is enabled; an
EMAIL_REPORTED event mutates state iff the simulation exists and was not
already reported, with no campaign-status check; a CREDENTIALS_ENTERED event
mutates state iff the simulation exists and credential-tracking is enabled,
with no campaign-status check; an ignored event is not recorded at all. -/
theorem event_accept_iff (ctx : TrackingRequestCtx) :
    (event_accepted .EMAIL_OPENED ctx = true ↔
      ctx.simFound = true
      ∧ (ctx.campaign_status = .IN_PROGRESS ∨ ctx.campaign_status = .SCHEDULED)
      ∧ ctx.track_email_opens = true)
    ∧ (event_accepted .LINK_CLICKED ctx = true ↔
      ctx.simFound = true
      ∧ (ctx.campaign_status = .IN_PROGRESS ∨ ctx.campaign_status = .SCHEDULED)
      ∧ ctx.track_link_clicks = true)
    ∧ (event_accepted .EMAIL_REPORTED ctx = true ↔
      ctx.simFound = true ∧ ctx.was_reported = false)
    ∧ (event_accepted .CREDENTIALS_ENTERED ctx = true ↔
      ctx.simFound = true ∧ ctx.track_credentials = true) := by
  refine ⟨?_, ?_, ?_, ?_⟩ <;>
    simp [event_accepted, and_assoc, Bool.not_eq_true']

/-- `RemediationTraining.status` choices (`apps/training/models.py`). -/
inductive TrainingStatus
  | ASSIGNED
  | IN_PROGRESS
  | COMPLETED
  | PASSED
  | FAILED
  | EXPIRED
deriving DecidableEq, Repr

/-- One `RemediationTraining` assignment row (`apps/training/models.py`,
class `RemediationTraining`), restricted to the fields the duplicate guard
reads. -/
structure RemediationTraining where
  employee : Nat
  training_module : Nat
  status : TrainingStatus
deriving DecidableEq, Repr

/-- The duplicate guard's filter (`apps/training/signals.py` lines 86-90):
an assignment for this (employee, module) pair whose status is ASSIGNED or
IN_PROGRESS. -/
def isOpenFor (emp m : Nat) (a : RemediationTraining) : Bool :=
  decide (a.employee = emp) && decide (a.training_module = m)
    && (decide (a.status = .ASSIGNED) || decide (a.status = .IN_PROGRESS))

/-- The body of `auto_assign_remediation`'s module loop
(`apps/training/signals.py` lines 84-101): create an ASSIGNED
RemediationTraining for the employee and this module unless an open
(ASSIGNED/IN_PROGRESS) assignment for the pair already exists. -/
def assign_step (emp : Nat) (acc : List RemediationTraining) (m : Nat) :
    List RemediationTraining :=
  if acc.any (isOpenFor emp m) then acc
  else acc ++ [{ employee := emp, training_module := m, status := .ASSIGNED }]

/-- `auto_assign_remediation` (`apps/training/signals.py` lines 64-109):
return unchanged when the score is at most 70; otherwise run the duplicate
guard and creation for each mandatory module in order. -/
def auto_assign_remediation (score : Int) (emp : Nat) (modules : List Nat)
    (assignments : List RemediationTraining) : List RemediationTraining :=
  if score ≤ 70 then assignments
  else modules.foldl (assign_step emp) assignments

/-- The attack-vector-specific assignment inside
`update_risk_score_from_simulation` (`apps/training/signals.py`
lines 296-348): assign the single matching module (when one was found) under
the same duplicate guard. -/
def assign_attack_vector_training (emp : Nat) (relevantModule : Option Nat)
    (assignments : List RemediationTraining) : List RemediationTraining :=
  match relevantModule with
  | none => assignments
  | some m =>
    if assignments.any (isOpenFor emp m) then assignments
    else assignments ++ [{ employee := emp, training_module := m, status := .ASSIGNED }]

/-- Number of assignment rows for one (employee, module) pair. -/
def countPair (assignments : List RemediationTraining) (emp m : Nat) : Nat :=
  (assignments.filter (fun a => decide (a.employee = emp) && decide (a.training_module = m))).length

theorem assign_step_any (emp e m m' : Nat) (acc : List RemediationTraining)
    (h : acc.any (isOpenFor e m) = true) :
    (assign_step emp acc m').any (isOpenFor e m) = true := by
  unfold assign_step
  split_ifs with hc
  · exact h
  · simp [List.any_append, h]

theorem foldl_assign_any (emp e m : Nat) (mods : List Nat) (acc : List RemediationTraining)
    (h : acc.any (isOpenFor e m) = true) :
    (mods.foldl (assign_step emp) acc).any (isOpenFor e m) = true := by
  induction mods generalizing acc with
  | nil => simpa using h
  | cons m' rest ih => exact ih _ (assign_step_any emp e m m' acc h)

theorem foldl_assign_covers (emp m : Nat) (mods : List Nat) (acc : List RemediationTraining)
    (hm : m ∈ mods) :
    (mods.foldl (assign_step emp) acc).any (isOpenFor emp m) = true := by
  induction mods generalizing acc with
  | nil => cases hm
  | cons m' rest ih =>
    rcases List.mem_cons.mp hm with heq | hm'
    · subst heq
      rw [List.foldl_cons]
      apply foldl_assign_any
      unfold assign_step
      split_ifs with hc
      · exact hc
      · simp [List.any_append, isOpenFor]
    · exact ih _ hm'

theorem foldl_assign_fixed (emp : Nat) (mods : List Nat) (acc : List RemediationTraining)
    (h : ∀ m ∈ mods, acc.any (isOpenFor emp m) = true) :
    mods.foldl (assign_step emp) acc = acc := by
  induction mods with
  | nil => rfl
  | cons m' rest ih =>
    have hstep : assign_step emp acc m' = acc := by
      unfold assign_step
      rw [if_pos (h m' (List.mem_cons_self m' rest))]
    rw [List.foldl_cons, hstep]
    exact ih (fun m hm => h m (List.mem_cons_of_mem m' hm))

theorem countPair_append_single (acc : List RemediationTraining) (a : RemediationTraining)
    (e m : Nat) :
    countPair (acc ++ [a]) e m
      = countPair acc e m + (if a.employee = e ∧ a.training_module = m then 1 else 0) := by
  simp only [countPair, List.filter_append, List.length_append]
  congr 1
  cases hb : (decide (a.employee = e) && decide (a.training_module = m)) with
  | false =>
    have hne : ¬(a.employee = e ∧ a.training_module = m) := by
      rintro ⟨h1, h2⟩
      simp [h1, h2] at hb
    simp [List.filter, hb, hne]
  | true =>
    have hand := (Bool.and_eq_true _ _).mp hb
    have h1 := of_decide_eq_true hand.1
    have h2 := of_decide_eq_true hand.2
    simp [List.filter, hb, h1, h2]

theorem foldl_assign_countPair (emp m : Nat) (mods : List Nat) (acc : List RemediationTraining)
    (h : acc.any (isOpenFor emp m) = true) :
    countPair (mods.foldl (assign_step emp) acc) emp m = countPair acc emp m := by
  induction mods generalizing acc with
  | nil => rfl
  | cons m' rest ih =>
    have hany := assign_step_any emp emp m m' acc h
    have hcount : countPair (assign_step emp acc m') emp m = countPair acc emp m := by
      unfold assign_step
      split_ifs with hc
      · rfl
      · rw [countPair_append_single]
        have hm' : ¬(m' = m) := by
          intro heq
          subst heq
          exact hc h
        simp [hm']
    rw [List.foldl_cons, ih _ hany, hcount]

/-- C7: the remediation trigger never creates a second ASSIGNED/IN_PROGRESS
assignment for a pair that already has an open one: when an open assignment
for (employee, module) exists, running the auto-assignment pass leaves the
number of assignments for that pair unchanged; running the pass twice in a
row equals running it once (so the second invocation creates nothing at all);
and the attack-vector-specific assignment obeys the same guard. -/
theorem remediation_no_duplicate_assignment (score : Int) (emp m : Nat) (modules : List Nat)
    (assignments : List RemediationTraining) (relevantModule : Option Nat)
    (h : assignments.any (isOpenFor emp m) = true) :
    countPair (auto_assign_remediation score emp modules assignments) emp m
      = countPair assignments emp m
    ∧ auto_assign_remediation score emp modules
        (auto_assign_remediation score emp modules assignments)
      = auto_assign_remediation score emp modules assignments
    ∧ countPair (assign_attack_vector_training emp relevantModule assignments) emp m
      = countPair assignments emp m := by
  refine ⟨?_, ?_, ?_⟩
  · unfold auto_assign_remediation
    split_ifs with hs
    · rfl
    · exact foldl_assign_countPair emp m modules assignments h
  · by_cases hs : score ≤ 70
    · simp [auto_assign_remediation, hs]
    · simp only [auto_assign_remediation, hs, if_false]
      exact foldl_assign_fixed emp modules _
        (fun m' hm' => foldl_assign_covers emp m' modules assignments hm')
  · rcases relevantModule with _ | m'
    · rfl
    · simp only [assign_attack_vector_training]
      split_ifs with hc
      · rfl
      · rw [countPair_append_single]
        have hm' : ¬(m' = m) := by
          intro heq
          subst heq
          exact hc h
        simp [hm']

/-- C7 witness: the theorem applied to a state holding one open (ASSIGNED)
assignment for employee 1 and module 2. -/
theorem remediation_no_duplicate_assignment_witness :
    List.any [{ employee := 1, training_module := 2, status := .ASSIGNED }]
      (isOpenFor 1 2) = true
    ∧ countPair (auto_assign_remediation 90 1 [2, 3]
        [{ employee := 1, training_module := 2, status := .ASSIGNED }]) 1 2
      = countPair [{ employee := 1, training_module := 2, status := .ASSIGNED }] 1 2 :=
  ⟨by decide,
    (remediation_no_duplicate_assignment 90 1 2 [2, 3]
      [{ employee := 1, training_module := 2, status := .ASSIGNED }] (some 2) (by decide)).1⟩

/-- The persisted CREDENTIALS_ENTERED tracking event created by
`credentials_submitted_view` (`apps/simulations/views.py` lines 1062-1075):
its `event_data` holds exactly the two field-presence booleans. -/
structure CredentialsEventRecord where
  event_type : EventType
  username_field_filled : Bool
  password_field_filled : Bool
  ip_address : String
  user_agent : String
deriving DecidableEq, Repr

/-- Python truthiness of `request.data.get(key)`: false for a missing key or
an empty string, true for a non-empty string. -/
def pyTruthy : Option String → Bool
  | none => false
  | some s => !(decide (s = ""))

/-- The event persisted by `credentials_submitted_view`
(`apps/simulations/views.py` lines 1062-1075): event type
CREDENTIALS_ENTERED, request ip/user-agent, and
`event_data = \x7busername_field_filled: bool(username),
password_field_filled: bool(password)\x7d` - the submitted values themselves
are never stored. -/
def credentials_submitted_event (ip ua : String) (username password : Option String) :
    CredentialsEventRecord :=
  { event_type := .CREDENTIALS_ENTERED
    username_field_filled := pyTruthy username
    password_field_filled := pyTruthy password
    ip_address := ip
    user_agent := ua }

/-- C9: the persisted CREDENTIALS_ENTERED event depends on the submitted
username and password only through whether each field was non-empty: two
submissions whose credential fields have equal truthiness produce identical
persisted events (in particular, any two submissions with non-empty fields
differing only in their contents), and the stored data is exactly the two
presence booleans. -/
theorem credential_event_noninterference (ip ua : String) (u1 u2 p1 p2 : Option String)
    (hu : pyTruthy u1 = pyTruthy u2) (hp : pyTruthy p1 = pyTruthy p2) :
    credentials_submitted_event ip ua u1 p1 = credentials_submitted_event ip ua u2 p2
    ∧ (credentials_submitted_event ip ua u1 p1).username_field_filled = pyTruthy u1
    ∧ (credentials_submitted_event ip ua u1 p1).password_field_filled = pyTruthy p1 := by
  refine ⟨?_, rfl, rfl⟩
  unfold credentials_submitted_event
  rw [hu, hp]

/-- C9 witness: two submissions with different non-empty usernames and
passwords produce the same persisted event. -/
theorem credential_event_noninterference_witness :
    pyTruthy (some "alice@corp.io") = pyTruthy (some "bob@corp.io")
    ∧ pyTruthy (some "hunter2") = pyTruthy (some "s3cret!")
    ∧ credentials_submitted_event "10.0.0.1" "Mozilla" (some "alice@corp.io") (some "hunter2")
      = credentials_submitted_event "10.0.0.1" "Mozilla" (some "bob@corp.io") (some "s3cret!") :=
  ⟨by decide, by decide,
    (credential_event_noninterference "10.0.0.1" "Mozilla" (some "alice@corp.io")
      (some "bob@corp.io") (some "hunter2") (some "s3cret!") (by decide) (by decide)).1⟩

/-- `SimulationCampaign._effective_sent_count` (`apps/simulations/models.py`
lines 283-293): prefer `total_sent`, else the count of simulations outside
{PENDING, FAILED}, else the total simulation count. -/
def effective_sent_count (c : SimulationCampaign) (sims : List EmailSimulation) : Nat :=
  if 0 < c.total_sent then c.total_sent
  else if 0 < countNonPendingFailed sims then countNonPendingFailed sims
  else sims.length

/-- `SimulationCampaign.compromise_rate` (`apps/simulations/models.py`
lines 319-326): `max(total_clicked, total_credentials_entered)` over the
effective sent count, times 100; 0 when the denominator is 0. -/
def compromise_rate (c : SimulationCampaign) (sims : List EmailSimulation) : ℚ :=
  let sent := effective_sent_count c sims
  if sent = 0 then 0
  else ((max c.total_clicked c.total_credentials_entered : Nat) : ℚ) / sent * 100

/-- `EmailSimulation.is_compromised` (`apps/simulations/models.py`
lines 464-467): clicked or entered credentials. -/
def is_compromised (s : EmailSimulation) : Bool := s.was_clicked || s.credentials_entered

/-- Number of compromised simulations (what a union count would use instead
of the max of the two campaign counters). -/
def countCompromised (sims : List EmailSimulation) : Nat :=
  (sims.filter is_compromised).length

/-- C10: for every campaign with a non-zero effective sent count, the
compromise rate on read equals `max(total_clicked, total_credentials_entered)
/ effective_sent * 100`; at the rollup state reached for two SENT
simulations, one only clicked and one only credentialed, the recomputed
counters are both 1, the rate is 50% (a single compromise), although two
simulations satisfy `is_compromised`. -/
theorem compromise_rate_uses_max (c : SimulationCampaign) (sims : List EmailSimulation)
    (h : effective_sent_count c sims ≠ 0) :
    compromise_rate c sims
      = ((max c.total_clicked c.total_credentials_entered : Nat) : ℚ)
          / (effective_sent_count c sims) * 100
    ∧ (update_campaign_stats .CREDENTIALS_ENTERED 2
        (update_campaign_stats .LINK_CLICKED 1 {}
          [{ status := .SENT, was_clicked := true }, { status := .SENT, credentials_entered := true }])
        [{ status := .SENT, was_clicked := true }, { status := .SENT, credentials_entered := true }]).total_clicked = 1
    ∧ (update_campaign_stats .CREDENTIALS_ENTERED 2
        (update_campaign_stats .LINK_CLICKED 1 {}
          [{ status := .SENT, was_clicked := true }, { status := .SENT, credentials_entered := true }])
        [{ status := .SENT, was_clicked := true }, { status := .SENT, credentials_entered := true }]).total_credentials_entered = 1
    ∧ compromise_rate
        (update_campaign_stats .CREDENTIALS_ENTERED 2
          (update_campaign_stats .LINK_CLICKED 1 {}
            [{ status := .SENT, was_clicked := true }, { status := .SENT, credentials_entered := true }])
          [{ status := .SENT, was_clicked := true }, { status := .SENT, credentials_entered := true }])
        [{ status := .SENT, was_clicked := true }, { status := .SENT, credentials_entered := true }]
      = 50
    ∧ countCompromised
        [{ status := .SENT, was_clicked := true }, { status := .SENT, credentials_entered := true }]
      = 2 := by
  refine ⟨?_, by decide, by decide, ?_, by decide⟩
  · unfold compromise_rate
    dsimp only
    rw [if_neg h]
  · have h1 : (update_campaign_stats .CREDENTIALS_ENTERED 2
        (update_campaign_stats .LINK_CLICKED 1 {}
          [{ status := .SENT, was_clicked := true }, { status := .SENT, credentials_entered := true }])
        [{ status := .SENT, was_clicked := true }, { status := .SENT, credentials_entered := true }])
        = { status := .IN_PROGRESS, sent_at := some 1, total_sent := 2, total_opened := 0,
            total_clicked := 1, total_reported := 0, total_credentials_entered := 1 } := by
      decide
    have h2 : effective_sent_count
        { status := .IN_PROGRESS, sent_at := some 1, total_sent := 2, total_opened := 0,
          total_clicked := 1, total_reported := 0, total_credentials_entered := 1 }
        [{ status := .SENT, was_clicked := true }, { status := .SENT, credentials_entered := true }]
        = 2 := by
      decide
    rw [h1]
    unfold compromise_rate
    dsimp only
    rw [h2]
    norm_num

/-- C10 witness: the theorem applied to a campaign whose counters record
3 clicks and 1 credential entry over 4 effectively sent simulations. -/
theorem compromise_rate_uses_max_witness :
    effective_sent_count
        { total_sent := 4, total_clicked := 3, total_credentials_entered := 1 } [] ≠ 0
    ∧ compromise_rate
        { total_sent := 4, total_clicked := 3, total_credentials_entered := 1 } []
      = ((max 3 1 : Nat) : ℚ) / (effective_sent_count
          { total_sent := 4, total_clicked := 3, total_credentials_entered := 1 } []) * 100 :=
  ⟨by decide,
    (compromise_rate_uses_max
      { total_sent := 4, total_clicked := 3, total_credentials_entered := 1 } []
      (by decide)).1⟩

end PhishAware
